import Mathlib

/-!
Verification of the job-matching and relevance-scoring engine of the TJH
backend (`backend/utils/job_scanner.py` and the accuracy evaluator
`backend/test_accuracy.py`).

The Python code is shallowly embedded: strings are Lean `String`s (Python
`None` for optional string fields is folded into `""`, which the code
itself does with `or ''`), Python floats used for the 0-100 score are
modelled by `ℚ`, and the two standard-library services the scorer
consumes — `datetime.fromisoformat` and the wall clock — are passed in as
explicit parameters (`parse : String → ParseResult` and `now : Int`,
epoch seconds), as every claim about them is either parametric in the
parse result or concerns only the failure branches.
-/

namespace TJH

/-- Does the first character list start the second one?  Models Python's
substring scan step. -/
def chStarts : List Char → List Char → Bool
  | [], _ => true
  | _ :: _, [] => false
  | a :: as, b :: bs => a = b && chStarts as bs

/-- `listIsSubstr needle haystack`: does `needle` occur contiguously in
`haystack`?  Models Python's `needle in haystack` on strings. -/
def listIsSubstr (needle : List Char) : List Char → Bool
  | [] => chStarts needle []
  | c :: t => chStarts needle (c :: t) || listIsSubstr needle t

/-- Python `needle in haystack` (substring containment). -/
def strContains (haystack needle : String) : Bool :=
  listIsSubstr needle.data haystack.data

/-- Python `str.lower()` restricted to ASCII, which is all the code uses. -/
def strLower (s : String) : String :=
  String.mk (s.data.map Char.toLower)

/-- Helper for `splitWords`: accumulate the current word (reversed). -/
def wordsAux : List Char → List Char → List String
  | [], acc => if acc.isEmpty then [] else [String.mk acc.reverse]
  | c :: cs, acc =>
    if c.isWhitespace then
      if acc.isEmpty then wordsAux cs [] else String.mk acc.reverse :: wordsAux cs []
    else wordsAux cs (c :: acc)

/-- Python `str.split()` with no argument: split on whitespace runs,
dropping empty tokens. -/
def splitWords (s : String) : List String :=
  wordsAux s.data []

/-- Digit string to a number (the code only feeds `float()` pure digit
runs, so the value is a natural number). -/
def digitsToNat (cs : List Char) : Nat :=
  cs.foldl (fun n c => 10 * n + (c.toNat - 48)) 0

/-- Maximal runs of digit characters, in order.  Models
`re.findall(r'[\d,]+', s)` applied to a comma-free string. -/
def digitRuns : List Char → List Char → List (List Char)
  | [], acc => if acc.isEmpty then [] else [acc.reverse]
  | c :: cs, acc =>
    if c.isDigit then digitRuns cs (c :: acc)
    else if acc.isEmpty then digitRuns cs []
    else acc.reverse :: digitRuns cs []

/-- `_parse_salary_range` (job_scanner.py, lines 21-37): strip commas,
collect digit runs; two or more runs give `(first, second)`, exactly one
gives the degenerate `(v, v)`, none (or empty / `"N/A"` input) gives no
range. -/
def parseSalaryRange (s : String) : Option (ℚ × ℚ) :=
  if s = "" ∨ s = "N/A" then none
  else
    match digitRuns (s.data.filter (fun c => c ≠ ',')) [] with
    | a :: b :: _ => some ((digitsToNat a : ℚ), (digitsToNat b : ℚ))
    | [a] => some ((digitsToNat a : ℚ), (digitsToNat a : ℚ))
    | [] => none

/-- Result of `datetime.fromisoformat(s.replace('Z', '+00:00'))` as the
scorer consumes it: `err` models a raised `ValueError`; `aware` models a
successfully parsed timezone-aware datetime (whose later subtraction from
a naive `datetime.now()` value raises `TypeError`, caught by the same
`except`); `naive t` models a naive datetime, `t` in epoch seconds. -/
inductive ParseResult where
  | err : ParseResult
  | aware : ParseResult
  | naive : Int → ParseResult
deriving DecidableEq, Repr

/-- `JobScannerInput` (models/schemas.py, lines 86-95).  All fields are
strings as the scorer consumes them; the pydantic schema restricts
`job_type` to `"On site" | "Remote" | "Hybrid"` (default `"Remote"`) and
defaults `country` to `"US"`, but the scorer itself guards every optional
field with Python truthiness (`if input_data.job_type:` …), so an empty
string models an unpopulated field. -/
structure JobScannerInput where
  job_title : String
  industry : String := ""
  salary_range : String := ""
  job_type : String := "Remote"
  location_city : String := ""
  location_state : String := ""
  country : String := "US"
  date_posted : String := ""
deriving DecidableEq, Repr

/-- The candidate-job record fields the scorer reads from the raw
provider dict (`job.get(...)`).  Absent string fields are `""` (the code
applies `or ''` / a `''` default), absent salaries are `none`. -/
structure Job where
  job_title : String := ""
  job_description : String := ""
  job_is_remote : Bool := false
  job_city : String := ""
  job_state : String := ""
  job_country : String := ""
  job_min_salary : Option ℚ := none
  job_max_salary : Option ℚ := none
  job_posted_at_datetime_utc : String := ""
deriving DecidableEq, Repr

/-- Python truthiness of an optional number (`None` and `0` are falsy). -/
def pyTruthyNum : Option ℚ → Bool
  | none => false
  | some v => v ≠ 0

/-- Title matcher (job_scanner.py, lines 44-55): lower-case and
whitespace-tokenize both titles; keywords are the criterion tokens longer
than 3 characters; if any keyword survives, match iff at least 50% of the
keywords occur verbatim among the candidate tokens, else fall back to
full-string containment in either direction.  Token sets are Python
`set`s, modelled by `dedup`ed lists (only membership and cardinality are
used). -/
def titleMatch (inputTitle jobTitle : String) : Bool :=
  let jt := strLower jobTitle
  let it := strLower inputTitle
  let inputWords := (splitWords it).dedup
  let jobWords := (splitWords jt).dedup
  let keyWords := inputWords.filter (fun w => 3 < w.length)
  if keyWords.isEmpty then
    strContains jt it || strContains it jt
  else
    decide (keyWords.length ≤ 2 * keyWords.countP (fun w => jobWords.contains w))

/-- Job-type matcher (job_scanner.py, lines 58-70): `Remote` requires the
candidate's remote flag, `On site` its negation, `Hybrid` the literal
substring `"hybrid"` in the lowered description or title; any other
(schema-impossible) value matches. -/
def jobTypeMatch (input : JobScannerInput) (job : Job) : Bool :=
  if input.job_type = "Remote" then job.job_is_remote
  else if input.job_type = "On site" then !job.job_is_remote
  else if input.job_type = "Hybrid" then
    strContains (strLower job.job_description) "hybrid" ||
      strContains (strLower job.job_title) "hybrid"
  else true

/-- The boolean appended for the location field (job_scanner.py, lines
74-98).  For non-`Remote` job types: each provided sub-field sets an
equality flag, the absent one stays `true`; with both provided the code
appends `city_match and state_match`, with one provided it appends
`city_match and state_match or city_match or state_match` (Python
precedence: `(c ∧ s) ∨ c ∨ s`).  For `Remote` job type it appends
`True`. -/
def locationFieldMatch (input : JobScannerInput) (job : Job) : Bool :=
  if input.job_type ≠ "Remote" then
    let jc := strLower job.job_city
    let js := strLower job.job_state
    let ic := strLower input.location_city
    let ist := strLower input.location_state
    let cityMatch := if ic ≠ "" then decide (ic = jc) else true
    let stateMatch := if ist ≠ "" then decide (ist = js) else true
    if ic ≠ "" ∧ ist ≠ "" then cityMatch && stateMatch
    else (cityMatch && stateMatch) || cityMatch || stateMatch
  else true

/-- `country_map` (job_scanner.py, lines 105-109): alias buckets for the
three special-cased criterion countries. -/
def countryMap (c : String) : Option (List String) :=
  if c = "us" then some ["us", "usa", "united states"]
  else if c = "uk" then some ["uk", "gb", "united kingdom"]
  else if c = "ca" then some ["ca", "canada"]
  else none

/-- Country matcher (job_scanner.py, lines 103-114): lower both sides; a
bucketed criterion matches iff any alias is a substring of the candidate
country, otherwise bidirectional substring containment. -/
def countryMatch (inputCountry jobCountry : String) : Bool :=
  let jc := strLower jobCountry
  let ic := strLower inputCountry
  match countryMap ic with
  | some aliases => aliases.any (fun a => strContains jc a)
  | none => strContains jc ic || strContains ic jc

/-- The numeric range-overlap test of the salary matcher (job_scanner.py,
line 125): `not (salary_max < input_min or salary_min > input_max)`. -/
def salaryOverlap (inputMin inputMax salMin salMax : ℚ) : Bool :=
  !(decide (salMax < inputMin) || decide (salMin > inputMax))

/-- Salary matcher (job_scanner.py, lines 119-128): parse the criterion
range; if it parses and both candidate salaries are truthy, test numeric
overlap, otherwise "can't verify, assume match". -/
def salaryFieldMatch (input : JobScannerInput) (job : Job) : Bool :=
  match parseSalaryRange input.salary_range with
  | some (inputMin, inputMax) =>
    if pyTruthyNum job.job_min_salary && pyTruthyNum job.job_max_salary then
      salaryOverlap inputMin inputMax
        (job.job_min_salary.getD 0) (job.job_max_salary.getD 0)
    else true
  | none => true

/-- Date matcher (job_scanner.py, lines 133-155): an absent candidate
date string, a string without a `'T'`, a `ValueError` from
`fromisoformat`, or a timezone-aware parse (whose subtraction from naive
`now` raises `TypeError`, caught by the same bare `except`) all yield a
match; a naive parse buckets the criterion text into day(≤1) / week(≤7) /
month(≤30) / anything-else(always true) over the floored day delta. -/
def dateMatch (parse : String → ParseResult) (now : Int)
    (datePosted jobDateStr : String) : Bool :=
  if jobDateStr = "" then true
  else if strContains jobDateStr "T" then
    match parse jobDateStr with
    | .err => true
    | .aware => true
    | .naive t =>
      let days := Int.fdiv (now - t) 86400
      let dl := strLower datePosted
      if strContains dl "day" || strContains dl "today" then decide (days ≤ 1)
      else if strContains dl "week" then decide (days ≤ 7)
      else if strContains dl "month" then decide (days ≤ 30)
      else true
  else true

/-- The `matches` list built by `_calculate_job_match_score`
(job_scanner.py, lines 39-155): one boolean per applicable field, in
source order (title always; job type, location, country, salary, date
each guarded by Python truthiness of the corresponding criterion
field). -/
def matchList (parse : String → ParseResult) (now : Int)
    (input : JobScannerInput) (job : Job) : List Bool :=
  [titleMatch input.job_title job.job_title]
    ++ (if input.job_type ≠ "" then [jobTypeMatch input job] else [])
    ++ (if input.location_city ≠ "" ∨ input.location_state ≠ "" then
          [locationFieldMatch input job] else [])
    ++ (if input.country ≠ "" then [countryMatch input.country job.job_country] else [])
    ++ (if input.salary_range ≠ "" then [salaryFieldMatch input job] else [])
    ++ (if input.date_posted ≠ "" then
          [dateMatch parse now input.date_posted job.job_posted_at_datetime_utc]
        else [])

/-- `total_checks` of `_calculate_job_match_score`: incremented in
exactly the branches that append to `matches`, and independent of the
candidate job. -/
def totalChecks (input : JobScannerInput) : ℕ :=
  1 + (if input.job_type ≠ "" then 1 else 0)
    + (if input.location_city ≠ "" ∨ input.location_state ≠ "" then 1 else 0)
    + (if input.country ≠ "" then 1 else 0)
    + (if input.salary_range ≠ "" then 1 else 0)
    + (if input.date_posted ≠ "" then 1 else 0)

/-- `_calculate_job_match_score` (job_scanner.py, lines 39-161):
`(sum(matches) / total_checks) * 100`, with `100.0` returned when no
check applied (`sum` over booleans is the count of `True`). -/
def calculateJobMatchScore (parse : String → ParseResult) (now : Int)
    (input : JobScannerInput) (job : Job) : ℚ :=
  if totalChecks input = 0 then 100
  else (((matchList parse now input job).count true : ℚ) / (totalChecks input : ℚ)) * 100

/-- `_check_job_matches_criteria` (job_scanner.py, lines 163-166): the
live body delegates to the score (everything after the first `return` is
unreachable). -/
def checkJobMatchesCriteria (parse : String → ParseResult) (now : Int)
    (input : JobScannerInput) (job : Job) (minMatchThreshold : ℚ) : Bool :=
  decide (minMatchThreshold ≤ calculateJobMatchScore parse now input job)

/-- The threshold actually used by `scan_jobs` (job_scanner.py, line
369): `100.0 if min_match_threshold >= 100.0 else min_match_threshold`. -/
def scanThreshold (minMatchThreshold : ℚ) : ℚ :=
  if 100 ≤ minMatchThreshold then 100 else minMatchThreshold

/-- The relevance-filtering step of `scan_jobs` (job_scanner.py, lines
366-371): with `strict_filter` enabled, a job is skipped unless
`_check_job_matches_criteria` holds at the clamped threshold; surviving
jobs keep their provider order.  (The subsequent per-job DTO construction
is a bijective mapping over the survivors, irrelevant to filtering.) -/
def scanJobsFilter (parse : String → ParseResult) (now : Int)
    (input : JobScannerInput) (strictFilter : Bool) (minMatchThreshold : ℚ)
    (jobs : List Job) : List Job :=
  if strictFilter then
    jobs.filter (fun job =>
      checkJobMatchesCriteria parse now input job (scanThreshold minMatchThreshold))
  else jobs

/-- `check_date_match` (test_accuracy.py, lines 56-85), the Accuracy
Evaluator's own date comparison: empty or `"N/A"` criterion matches;
empty or `"N/A"` candidate date is a MISMATCH; otherwise a string with a
`'T'` is parsed (`ValueError`, or the `TypeError` from subtracting a
naive copy of an aware datetime, both land in the `except` returning
`True`) and bucketed exactly as the scorer does; a string without `'T'`
matches. -/
def check_date_match (parse : String → ParseResult) (now : Int)
    (input_date output_date : String) : Bool :=
  if input_date = "" ∨ input_date = "N/A" then true
  else if output_date = "" ∨ output_date = "N/A" then false
  else if strContains output_date "T" then
    match parse output_date with
    | .err => true
    | .aware => true
    | .naive t =>
      let days := Int.fdiv (now - t) 86400
      let il := strLower input_date
      if strContains il "day" || strContains il "today" then decide (days ≤ 1)
      else if strContains il "week" then decide (days ≤ 7)
      else if strContains il "month" then decide (days ≤ 30)
      else true
  else true

/-- A parse stub on which `fromisoformat` always raises (no well-formed
ISO string is involved in the concrete scenarios that use it). -/
def parseAllErr : String → ParseResult := fun _ => ParseResult.err

/-- A parse stub returning a naive datetime at the epoch, to exercise the
successful-parse branch in witnesses. -/
def parseAllEpoch : String → ParseResult := fun _ => ParseResult.naive 0

/-- Criteria with only the title populated (every optional criterion
empty), for the vacuous-match scenarios. -/
def cTitleOnly : JobScannerInput :=
  { job_title := "engineer", job_type := "", country := "" }

/-- A candidate whose title equals the `cTitleOnly` criterion title. -/
def jEngineer : Job := { job_title := "engineer" }

/-- Criteria of the concrete scenario of §8.7-§8.8 of the spec. -/
def cScenario : JobScannerInput :=
  { job_title := "Software Engineer", salary_range := "$80,000 - $100,000",
    job_type := "Remote", country := "US" }

/-- Candidate of the §8.7 scenario (salary 85-95k, inside 80-100k). -/
def jScenarioInRange : Job :=
  { job_title := "Senior Software Engineer", job_is_remote := true,
    job_min_salary := some 85000, job_max_salary := some 95000,
    job_country := "United States" }

/-- Candidate of the §8.8 scenario (salary 150-160k, outside 80-100k). -/
def jScenarioOutRange : Job :=
  { job_title := "Senior Software Engineer", job_is_remote := true,
    job_min_salary := some 150000, job_max_salary := some 160000,
    job_country := "United States" }

/-- Non-remote criteria specifying a city only (state left empty). -/
def cCityOnly : JobScannerInput :=
  { job_title := "engineer", job_type := "On site", location_city := "Boston",
    country := "" }

/-- A candidate in a different city than `cCityOnly` asks for. -/
def jWrongCity : Job := { job_city := "Chicago" }

/-- Non-remote criteria specifying both city and state. -/
def cCityState : JobScannerInput :=
  { job_title := "engineer", job_type := "On site", location_city := "Boston",
    location_state := "MA", country := "" }

/-- A candidate with the right city but the wrong state. -/
def jWrongState : Job := { job_city := "Boston", job_state := "TX" }

/-- `check_location_match` (test_accuracy.py, lines 87-107), the Accuracy
Evaluator's own location comparison: remote job types bypass; no
criterion matches; otherwise per-sub-field bidirectional substring
containment (absent sub-field counts as matched) combined with OR. -/
def check_location_match (input_city input_state output_city output_state
    job_type : String) : Bool :=
  if job_type ≠ "" ∧ strContains (strLower job_type) "remote" then true
  else if input_city = "" ∧ input_state = "" then true
  else
    let icl := strLower input_city
    let isl := strLower input_state
    let ocl := strLower output_city
    let osl := strLower output_state
    let cityMatch := decide (icl = "") || strContains ocl icl || strContains icl ocl
    let stateMatch := decide (isl = "") || strContains osl isl || strContains isl osl
    cityMatch || stateMatch

/-- When no date criterion is set, the match list does not depend on the
clock or the ISO parser. -/
theorem matchList_of_date_empty (parse : String → ParseResult) (now : Int)
    (input : JobScannerInput) (job : Job) (h : input.date_posted = "") :
    matchList parse now input job = matchList parseAllErr 0 input job := by
  simp [matchList, h]

/-- The `matches` list and `total_checks` grow in lockstep: one boolean
per counted check. -/
theorem matchList_length (parse : String → ParseResult) (now : Int)
    (input : JobScannerInput) (job : Job) :
    (matchList parse now input job).length = totalChecks input := by
  simp only [matchList, totalChecks, List.length_append]
  split_ifs <;> simp

/-- The clamp `scan_jobs` applies to its threshold is monotone. -/
theorem scanThreshold_mono {t1 t2 : ℚ} (h : t1 ≤ t2) :
    scanThreshold t1 ≤ scanThreshold t2 := by
  unfold scanThreshold
  split_ifs <;> linarith

/-- C3: if the criteria have only the title set — every other criterion
field empty, so that the scorer's truthiness guards skip every other
check — and the title matcher accepts the candidate, the score is
exactly 100. -/
theorem score_title_only_is_100 (parse : String → ParseResult) (now : Int)
    (input : JobScannerInput) (job : Job)
    (hind : input.industry = "") (hsal : input.salary_range = "")
    (hjt : input.job_type = "") (hcity : input.location_city = "")
    (hstate : input.location_state = "") (hctry : input.country = "")
    (hdate : input.date_posted = "")
    (htitle : titleMatch input.job_title job.job_title = true) :
    calculateJobMatchScore parse now input job = 100 := by
  have h : matchList parse now input job = [true] := by
    simp [matchList, hjt, hcity, hstate, hctry, hsal, hdate, htitle]
  have ht : totalChecks input = 1 := by
    simp [totalChecks, hjt, hcity, hstate, hctry, hsal, hdate]
  rw [calculateJobMatchScore, ht, h]
  norm_num

/-- Witness for `score_title_only_is_100` at the concrete title-only
criteria and a title-matching candidate. -/
theorem score_title_only_is_100_witness :
    cTitleOnly.industry = "" ∧ cTitleOnly.salary_range = "" ∧
    cTitleOnly.job_type = "" ∧ cTitleOnly.location_city = "" ∧
    cTitleOnly.location_state = "" ∧ cTitleOnly.country = "" ∧
    cTitleOnly.date_posted = "" ∧
    titleMatch cTitleOnly.job_title jEngineer.job_title = true ∧
    calculateJobMatchScore parseAllErr 0 cTitleOnly jEngineer = 100 :=
  ⟨rfl, rfl, rfl, rfl, rfl, rfl, rfl, by decide,
    score_title_only_is_100 parseAllErr 0 cTitleOnly jEngineer
      rfl rfl rfl rfl rfl rfl rfl (by decide)⟩

/-- C4: the score is `100 * (true matches) / (applicable checks)` with
`100` for the (unreachable) zero-check case, and always lies in
`[0, 100]`. -/
theorem score_formula_and_bounds (parse : String → ParseResult) (now : Int)
    (input : JobScannerInput) (job : Job) :
    calculateJobMatchScore parse now input job =
      (if totalChecks input = 0 then (100 : ℚ)
       else 100 * ((matchList parse now input job).count true : ℚ) /
         (totalChecks input : ℚ)) ∧
    0 ≤ calculateJobMatchScore parse now input job ∧
    calculateJobMatchScore parse now input job ≤ 100 := by
  have hm : ((matchList parse now input job).count true : ℚ) ≤
      (totalChecks input : ℚ) := by
    rw [← matchList_length parse now input job]
    exact_mod_cast List.count_le_length true (matchList parse now input job)
  refine ⟨?_, ?_, ?_⟩
  · unfold calculateJobMatchScore
    split_ifs
    · rfl
    · ring
  · unfold calculateJobMatchScore
    split_ifs
    · norm_num
    · positivity
  · unfold calculateJobMatchScore
    split_ifs with h
    · norm_num
    · have hn : (0 : ℚ) < (totalChecks input : ℚ) := by
        exact_mod_cast Nat.pos_of_ne_zero h
      calc ((matchList parse now input job).count true : ℚ) /
            (totalChecks input : ℚ) * 100
          ≤ 1 * 100 := by
            apply mul_le_mul_of_nonneg_right _ (by norm_num)
            exact div_le_one_of_le₀ hm (le_of_lt hn)
        _ = 100 := one_mul 100

/-- C5: the two concrete scenarios of §8.7-§8.8: with the in-range salary
all four applicable fields match (score 100); with the out-of-range
salary three of four match (score 75). -/
theorem score_concrete_scenarios (parse : String → ParseResult) (now : Int) :
    calculateJobMatchScore parse now cScenario jScenarioInRange = 100 ∧
    calculateJobMatchScore parse now cScenario jScenarioOutRange = 75 := by
  constructor
  · have h : matchList parse now cScenario jScenarioInRange =
        [true, true, true, true] := by
      rw [matchList_of_date_empty parse now cScenario jScenarioInRange rfl]
      decide
    have ht : totalChecks cScenario = 4 := by decide
    rw [calculateJobMatchScore, h, ht]
    norm_num
  · have h : matchList parse now cScenario jScenarioOutRange =
        [true, true, true, false] := by
      rw [matchList_of_date_empty parse now cScenario jScenarioOutRange rfl]
      decide
    have ht : totalChecks cScenario = 4 := by decide
    rw [calculateJobMatchScore, h, ht]
    norm_num

/-- C1: the code contradicts its own "Stricter matching" comment.  For a
non-remote criterion giving a city only (state empty), the appended
location boolean is `(city_match and state_match) or city_match or
state_match`, and the absent state defaults its flag to `True`, so the
whole expression is `True` regardless of the city comparison: a candidate
in a different city still counts as a location match. -/
theorem location_single_field_always_matches :
    cCityOnly.job_type ≠ "Remote" ∧
    cCityOnly.location_city ≠ "" ∧ cCityOnly.location_state = "" ∧
    strLower cCityOnly.location_city ≠ strLower jWrongCity.job_city ∧
    locationFieldMatch cCityOnly jWrongCity = true := by
  decide

/-- C8: the numeric range-overlap test of the salary matcher is symmetric
in the two ranges. -/
theorem salaryOverlap_symm (a b c d : ℚ) :
    salaryOverlap a b c d = salaryOverlap c d a b := by
  unfold salaryOverlap
  rcases lt_or_le d a with h | h <;> rcases lt_or_le b c with h2 | h2 <;>
    simp [h, h2, not_lt_of_le, gt_iff_lt, not_lt.mpr]

/-- C7: with any date criterion, a candidate whose posted-at string is
empty, has no `'T'` time marker, or makes `fromisoformat` raise, is
treated as a date match. -/
theorem dateMatch_lenient (parse : String → ParseResult) (now : Int)
    (datePosted jobDateStr : String)
    (h : jobDateStr = "" ∨ strContains jobDateStr "T" = false ∨
      parse jobDateStr = ParseResult.err) :
    dateMatch parse now datePosted jobDateStr = true := by
  rcases h with h | h | h
  · simp [dateMatch, h]
  · unfold dateMatch
    split_ifs <;> simp_all
  · unfold dateMatch
    rw [h]
    split_ifs <;> rfl

/-- Witness for `dateMatch_lenient`: the string `"Full Time"` (it does
contain a `'T'`, but `fromisoformat` raises on it). -/
theorem dateMatch_lenient_witness :
    parseAllErr "Full Time" = ParseResult.err ∧
    dateMatch parseAllErr 0 "week" "Full Time" = true :=
  ⟨rfl, dateMatch_lenient parseAllErr 0 "week" "Full Time" (Or.inr (Or.inr rfl))⟩

/-- C6: raising the threshold can only shrink the surviving set: with
strict filtering on, every job surviving the higher threshold also
survives the lower one. -/
theorem scanJobsFilter_threshold_antitone (parse : String → ParseResult)
    (now : Int) (input : JobScannerInput) (jobs : List Job) {t1 t2 : ℚ}
    (h : t1 ≤ t2) :
    scanJobsFilter parse now input true t2 jobs ⊆
      scanJobsFilter parse now input true t1 jobs := by
  intro job hj
  simp only [scanJobsFilter, if_pos, List.mem_filter] at hj ⊢
  refine ⟨hj.1, ?_⟩
  have h2 := of_decide_eq_true hj.2
  exact decide_eq_true (le_trans (scanThreshold_mono h) h2)

/-- Witness for `scanJobsFilter_threshold_antitone` at thresholds 50 and
80 over a one-job batch. -/
theorem scanJobsFilter_threshold_antitone_witness :
    ((50 : ℚ) ≤ 80) ∧
    scanJobsFilter parseAllErr 0 cScenario true 80 [jScenarioInRange] ⊆
      scanJobsFilter parseAllErr 0 cScenario true 50 [jScenarioInRange] :=
  ⟨by norm_num,
    scanJobsFilter_threshold_antitone parseAllErr 0 cScenario
      [jScenarioInRange] (by norm_num)⟩

/-- If the criterion text hits none of the day/today/week/month buckets,
the scorer's date matcher accepts every candidate. -/
theorem dateMatch_of_no_bucket (parse : String → ParseResult) (now : Int)
    (d jd : String)
    (h1 : strContains (strLower d) "day" = false)
    (h2 : strContains (strLower d) "today" = false)
    (h3 : strContains (strLower d) "week" = false)
    (h4 : strContains (strLower d) "month" = false) :
    dateMatch parse now d jd = true := by
  unfold dateMatch
  split_ifs <;> try rfl
  cases hp : parse jd <;> simp [h1, h2, h3, h4]

/-- C2 counterexample: the Accuracy Evaluator's re-implemented
comparisons disagree with the Match Scorer's field matchers on concrete
inputs.  Date: for criterion `"week"` and an absent candidate date the
evaluator reports a mismatch while the scorer reports a match.  Location:
for criterion city Boston / state MA and a candidate in Boston, TX the
evaluator (OR of substring sub-matches) reports a match while the scorer
(AND of equalities) reports a mismatch. -/
theorem evaluator_scorer_disagree :
    check_date_match parseAllErr 0 "week" "" = false ∧
    dateMatch parseAllErr 0 "week" "" = true ∧
    check_location_match "Boston" "MA" "Boston" "TX" "On site" = true ∧
    cCityState.location_city = "Boston" ∧ cCityState.location_state = "MA" ∧
    jWrongState.job_city = "Boston" ∧ jWrongState.job_state = "TX" ∧
    locationFieldMatch cCityState jWrongState = false := by
  decide

/-- C2 amended: the evaluator's date comparison agrees with the scorer's
date matcher whenever the candidate's date string is nonempty and not
`"N/A"`; on empty or `"N/A"` candidate strings the two diverge (see the
counterexample). -/
theorem check_date_match_agrees_on_nonempty (parse : String → ParseResult)
    (now : Int) (d jd : String) (h1 : jd ≠ "") (h2 : jd ≠ "N/A") :
    check_date_match parse now d jd = dateMatch parse now d jd := by
  by_cases hd : d = "" ∨ d = "N/A"
  · have hL : check_date_match parse now d jd = true := by
      unfold check_date_match
      rw [if_pos hd]
    rw [hL]
    rcases hd with hd | hd <;> subst hd <;>
      exact (dateMatch_of_no_bucket parse now _ jd (by decide) (by decide)
        (by decide) (by decide)).symm
  · push_neg at hd
    unfold check_date_match dateMatch
    rw [if_neg (by simp [hd.1, hd.2]), if_neg (by simp [h1, h2]), if_neg h1]

/-- Witness for `check_date_match_agrees_on_nonempty` on a well-formed
ISO string whose parse succeeds. -/
theorem check_date_match_agrees_on_nonempty_witness :
    ("2024-01-01T00:00:00" ≠ "") ∧ ("2024-01-01T00:00:00" ≠ "N/A") ∧
    check_date_match parseAllEpoch 5 "week" "2024-01-01T00:00:00" =
      dateMatch parseAllEpoch 5 "week" "2024-01-01T00:00:00" :=
  ⟨by decide, by decide,
    check_date_match_agrees_on_nonempty parseAllEpoch 5 "week"
      "2024-01-01T00:00:00" (by decide) (by decide)⟩

/-- C9 amended: with strict filtering on, the survivors are a sublist of
the input batch (original order, no resort) and consist of exactly the
jobs whose score reaches the CLAMPED threshold `min(t, 100)` — for
`t ≤ 100` this is exactly "score at least t", but `scan_jobs` clamps
larger thresholds down to 100 (see the counterexample). -/
theorem scanJobsFilter_exact_and_ordered (parse : String → ParseResult)
    (now : Int) (input : JobScannerInput) (t : ℚ) (jobs : List Job) :
    List.Sublist (scanJobsFilter parse now input true t jobs) jobs ∧
    ∀ job, job ∈ scanJobsFilter parse now input true t jobs ↔
      job ∈ jobs ∧ scanThreshold t ≤ calculateJobMatchScore parse now input job := by
  constructor
  · simp only [scanJobsFilter, if_pos]
    exact List.filter_sublist jobs
  · intro job
    simp [scanJobsFilter, List.mem_filter, checkJobMatchesCriteria]

/-- C9 counterexample: at threshold 150 the claim predicts an empty
output (no score exceeds 100), but `scan_jobs` clamps the threshold to
100 and keeps a perfectly matching job whose score, 100, is below 150. -/
theorem scanJobsFilter_threshold_above_100 :
    scanJobsFilter parseAllErr 0 cTitleOnly true 150 [jEngineer] = [jEngineer] ∧
    calculateJobMatchScore parseAllErr 0 cTitleOnly jEngineer < 150 := by
  have h : matchList parseAllErr 0 cTitleOnly jEngineer = [true] := by decide
  have ht : totalChecks cTitleOnly = 1 := by decide
  have hs : calculateJobMatchScore parseAllErr 0 cTitleOnly jEngineer = 100 := by
    rw [calculateJobMatchScore, h, ht]
    norm_num
  constructor
  · have hth : scanThreshold 150 = (100 : ℚ) := by
      unfold scanThreshold
      norm_num
    simp [scanJobsFilter, checkJobMatchesCriteria, hth, hs, List.filter]
  · rw [hs]
    norm_num

/-- C10: a criterion country lower-casing into one of the us/uk/ca alias
buckets matches exactly when some alias of the bucket occurs as a
substring of the lower-cased candidate country; in particular the `"us"`
alias makes criterion US match a candidate in Australia. -/
theorem countryMatch_bucket_and_australia :
    (∀ ic jc al, countryMap (strLower ic) = some al →
      countryMatch ic jc = al.any (fun a => strContains (strLower jc) a)) ∧
    countryMatch "US" "Australia" = true := by
  constructor
  · intro ic jc al h
    simp only [countryMatch, h]
  · decide

/-- Witness for `countryMatch_bucket_and_australia`: instantiating the
bucket characterization at criterion US and candidate Australia. -/
theorem countryMatch_bucket_witness :
    countryMap (strLower "US") = some ["us", "usa", "united states"] ∧
    countryMatch "US" "Australia" =
      (["us", "usa", "united states"].any
        (fun a => strContains (strLower "Australia") a)) :=
  ⟨by decide,
    countryMatch_bucket_and_australia.1 "US" "Australia"
      ["us", "usa", "united states"] (by decide)⟩

end TJH
